import Mathlib

/-!
Shallow embedding of the drone-detection engine (drone_detection.cpp /
drone_detection.h): the modulation state machine, the radio-mode
configuration contracts, the signature matcher, the confidence scorer and
the frequency-sweep controller.

Modelling conventions:
* C `float` values are embedded as `ℚ` (exact arithmetic);
* machine integers are `Nat`/`Int`; the `uint8_t` accumulator in
  `calculateConfidence` is reduced `% 256` at each addition, as in C;
* the external SX1262 radio driver is a record of status-returning
  functions; a possibly-NULL handle is `Option SX1262`;
* the module-scope mutable globals (`currentModulation`,
  `currentSweepFrequency`, `sweepComplete`) are threaded explicitly as an
  `EngineState`;
* `Serial` printing has no effect on engine state; where a claim speaks of
  a failure being *reported*, the status code that the C code prints is
  surfaced as an extra `Option Int` component of the result (`none` when
  no radio call was made because the handle was NULL).
-/

/-- Modulation types supported by the detection engine (drone_detection.h). -/
inductive ModulationType where
  | MOD_LORA
  | MOD_FSK
  | MOD_OOK
  | MOD_UNKNOWN
  deriving DecidableEq

open ModulationType

/-- Known drone protocol signature entry (drone_detection.h). -/
structure DroneSignature where
  name : String
  frequencyMin : ℚ
  frequencyMax : ℚ
  modulation : ModulationType
  bandwidth : ℚ
  minRSSI : ℚ
  deriving DecidableEq

/-- Detected drone signal record (drone_detection.h, struct DroneSignal). -/
structure DroneSignal where
  frequency : ℚ
  rssi : ℚ
  snr : ℚ
  freqError : ℚ
  modulation : ModulationType
  isDroneSignature : Bool
  confidence : Nat
  droneType : String
  deriving DecidableEq

/-- US 900MHz ISM band minimum (drone_detection.h). -/
def FREQ_900_MIN : ℚ := 902
/-- US 900MHz ISM band maximum (drone_detection.h). -/
def FREQ_900_MAX : ℚ := 928
/-- US 900MHz ISM band center (drone_detection.h). -/
def FREQ_900_CENTER : ℚ := 915

/-- LoRa bandwidth constant in kHz (drone_detection.h). -/
def LORA_BANDWIDTH : ℚ := 125
/-- LoRa spreading factor constant (drone_detection.h). -/
def LORA_SPREADING_FACTOR : Nat := 9
/-- LoRa coding rate constant (drone_detection.h). -/
def LORA_CODING_RATE : Nat := 7
/-- FSK bitrate constant in kbps (drone_detection.h). -/
def FSK_BITRATE : ℚ := 100
/-- FSK frequency deviation constant in kHz (drone_detection.h). -/
def FSK_FREQUENCY_DEV : ℚ := 50
/-- FSK receiver bandwidth constant in kHz (drone_detection.h). -/
def FSK_RX_BANDWIDTH : ℚ := 156.2
/-- FSK preamble length in bits (drone_detection.h). -/
def FSK_PREAMBLE_LEN : Nat := 16
/-- OOK bitrate constant in kbps (drone_detection.h). -/
def OOK_BITRATE : ℚ := 4.8
/-- OOK receiver bandwidth constant in kHz (drone_detection.h). -/
def OOK_RX_BANDWIDTH : ℚ := 58

/-- RadioLib success status code: 0 means success (spec section 6). -/
def RADIOLIB_ERR_NONE : Int := 0

/-- Modelled from the spec: `RADIOLIB_ERR_INVALID_CALL` is a status constant
of the external RadioLib driver, not present in these sources; the spec
(section 6) only requires it to be a nonzero failure code, and the engine
never inspects its particular value. -/
def RADIOLIB_ERR_INVALID_CALL : Int := -1

/-- External SX1262 radio driver handle (RadioLib): each configuration entry
point returns a status code, 0 on success.  `begin` takes (frequency,
bandwidth, spreading factor, coding rate); `beginFSK` takes (frequency,
bitrate, frequency deviation, rx bandwidth, power, preamble length, TCXO
voltage, use-LDO flag). -/
structure SX1262 where
  begin : ℚ → ℚ → Nat → Nat → Int
  beginFSK : ℚ → ℚ → ℚ → ℚ → Int → Nat → ℚ → Bool → Int

/-- The module-scope mutable state of the engine (drone_detection.cpp):
`currentModulation`, `currentSweepFrequency`, `sweepComplete`. -/
structure EngineState where
  currentModulation : ModulationType
  currentSweepFrequency : ℚ
  sweepComplete : Bool
  deriving DecidableEq

/-- Database of known drone protocol signatures (drone_detection.cpp,
`knownSignatures`), in declaration order. -/
def knownSignatures : List DroneSignature :=
  [ { name := "ExpressLRS 900", frequencyMin := 902, frequencyMax := 928,
      modulation := MOD_LORA, bandwidth := 500, minRSSI := -120 },
    { name := "ELRS 900 Narrow", frequencyMin := 902, frequencyMax := 928,
      modulation := MOD_LORA, bandwidth := 100, minRSSI := -115 },
    { name := "TBS Crossfire", frequencyMin := 902, frequencyMax := 928,
      modulation := MOD_FSK, bandwidth := 10000, minRSSI := -130 },
    { name := "RFD900/SiK", frequencyMin := 902, frequencyMax := 928,
      modulation := MOD_FSK, bandwidth := 26000, minRSSI := -121 },
    { name := "FrSky R9", frequencyMin := 902, frequencyMax := 928,
      modulation := MOD_LORA, bandwidth := 200, minRSSI := -120 },
    { name := "FSK Telemetry", frequencyMin := 902, frequencyMax := 928,
      modulation := MOD_FSK, bandwidth := 156, minRSSI := -110 },
    { name := "OOK Remote", frequencyMin := 902, frequencyMax := 928,
      modulation := MOD_OOK, bandwidth := 58, minRSSI := -100 } ]

/-- Number of database entries (`NUM_SIGNATURES`). -/
def NUM_SIGNATURES : Nat := knownSignatures.length

/-- String name of a modulation type (`getModulationName`). -/
def getModulationName (mod : ModulationType) : String :=
  match mod with
  | MOD_LORA => "LoRa"
  | MOD_FSK => "FSK"
  | MOD_OOK => "OOK"
  | MOD_UNKNOWN => "Unknown"

/-- Band membership check (`isValid900MHzFrequency`). -/
def isValid900MHzFrequency (frequency : ℚ) : Bool :=
  decide (frequency ≥ FREQ_900_MIN ∧ frequency ≤ FREQ_900_MAX)

/-- `configureLoRaMode`: calls `radio->begin` with the fixed LoRa parameters
and, on success only, sets `currentModulation := MOD_LORA`.  The out-of-band
frequency check only prints a warning and is omitted (no state effect). -/
def configureLoRaMode (radio : Option SX1262) (frequency : ℚ) (s : EngineState) :
    Int × EngineState :=
  match radio with
  | none => (RADIOLIB_ERR_INVALID_CALL, s)
  | some r =>
    let state := r.begin frequency LORA_BANDWIDTH LORA_SPREADING_FACTOR LORA_CODING_RATE
    if state = RADIOLIB_ERR_NONE then
      (state, { s with currentModulation := MOD_LORA })
    else
      (state, s)

/-- `configureFSKMode`: calls `radio->beginFSK` with the fixed FSK parameters
and, on success only, sets `currentModulation := MOD_FSK`. -/
def configureFSKMode (radio : Option SX1262) (frequency : ℚ) (s : EngineState) :
    Int × EngineState :=
  match radio with
  | none => (RADIOLIB_ERR_INVALID_CALL, s)
  | some r =>
    let state := r.beginFSK frequency FSK_BITRATE FSK_FREQUENCY_DEV
      FSK_RX_BANDWIDTH 14 FSK_PREAMBLE_LEN 1.6 false
    if state = RADIOLIB_ERR_NONE then
      (state, { s with currentModulation := MOD_FSK })
    else
      (state, s)

/-- `configureOOKMode`: calls `radio->beginFSK` with zero deviation and the
fixed OOK parameters and, on success only, sets `currentModulation := MOD_OOK`. -/
def configureOOKMode (radio : Option SX1262) (frequency : ℚ) (s : EngineState) :
    Int × EngineState :=
  match radio with
  | none => (RADIOLIB_ERR_INVALID_CALL, s)
  | some r =>
    let state := r.beginFSK frequency OOK_BITRATE 0
      OOK_RX_BANDWIDTH 14 16 1.6 false
    if state = RADIOLIB_ERR_NONE then
      (state, { s with currentModulation := MOD_OOK })
    else
      (state, s)

/-- `getCurrentModulation`. -/
def getCurrentModulation (s : EngineState) : ModulationType :=
  s.currentModulation

/-- `switchToNextModulation`: proposes the next modulation in the cycle
LoRa→FSK→OOK→LoRa, attempts the corresponding radio reconfiguration and
commits the proposal only on success; on failure it returns the unchanged
`currentModulation`.  Result: (returned modulation, surfaced configure
status, final engine state). -/
def switchToNextModulation (radio : Option SX1262) (frequency : ℚ) (s : EngineState) :
    ModulationType × Option Int × EngineState :=
  match radio with
  | none => (s.currentModulation, none, s)
  | some r =>
    let step :=
      match s.currentModulation with
      | MOD_LORA => (MOD_FSK, configureFSKMode (some r) frequency s)
      | MOD_FSK => (MOD_OOK, configureOOKMode (some r) frequency s)
      | _ => (MOD_LORA, configureLoRaMode (some r) frequency s)
    let nextMod := step.1
    let state := step.2.1
    let s1 := step.2.2
    if state ≠ RADIOLIB_ERR_NONE then
      (s1.currentModulation, some state, s1)
    else
      (nextMod, some state, { s1 with currentModulation := nextMod })

/-- First-match scan loop body of `matchSignature`: walks the table in
declaration order carrying the running index `i`, skipping an entry when its
modulation differs, when the frequency lies outside its inclusive range, or
when the RSSI is below its floor; returns the index of the first hit, `-1`
when the scan exhausts. -/
def matchSignatureGo (rssi frequency : ℚ) (modulation : ModulationType) :
    List DroneSignature → Nat → Int
  | [], _ => -1
  | sig :: rest, i =>
    if sig.modulation ≠ modulation then
      matchSignatureGo rssi frequency modulation rest (i + 1)
    else if frequency < sig.frequencyMin ∨ frequency > sig.frequencyMax then
      matchSignatureGo rssi frequency modulation rest (i + 1)
    else if rssi < sig.minRSSI then
      matchSignatureGo rssi frequency modulation rest (i + 1)
    else
      (i : Int)

/-- `matchSignature`: first-match scan of `knownSignatures`; returns the
matching index or `-1`. -/
def matchSignature (rssi frequency : ℚ) (modulation : ModulationType) : Int :=
  matchSignatureGo rssi frequency modulation knownSignatures 0

/-- Predicate form of the per-entry acceptance test of the scan loop:
modulation equal, frequency within the inclusive range, RSSI at or above
the floor. -/
def sigMatches (sig : DroneSignature) (rssi frequency : ℚ)
    (modulation : ModulationType) : Bool :=
  decide (sig.modulation = modulation) &&
  decide (sig.frequencyMin ≤ frequency) &&
  decide (frequency ≤ sig.frequencyMax) &&
  decide (sig.minRSSI ≤ rssi)

/-- Placeholder entry for total list indexing (`List.getD`); never reached
for indices produced by `matchSignature`. -/
def defaultSignature : DroneSignature :=
  { name := "", frequencyMin := 0, frequencyMax := 0,
    modulation := MOD_UNKNOWN, bandwidth := 0, minRSSI := 0 }

/-- `calculateConfidence`: three guarded, independently clamped
contributions, each cast to `uint8_t` (truncation toward zero) before being
added into a `uint8_t` accumulator (hence the `% 256`), with the total
clamped to 100. -/
def calculateConfidence (rssi snr freqError : ℚ) : Nat :=
  let confidence : Nat := 0
  let confidence :=
    if rssi > -120 then
      (confidence + (Int.toNat (Int.floor (min ((rssi + 120) / 90 * 50) 50)))) % 256
    else confidence
  let confidence :=
    if snr > 0 then
      (confidence + (Int.toNat (Int.floor (min (snr / 20 * 30) 30)))) % 256
    else confidence
  let absFreqError := |freqError|
  let confidence :=
    if absFreqError < 10000 then
      (confidence + (Int.toNat (Int.floor (max ((10000 - absFreqError) / 10000 * 20) 0)))) % 256
    else confidence
  min confidence 100

/-- Clamp a rational into an interval. -/
def clampQ (x lo hi : ℚ) : ℚ := max lo (min x hi)

/-- Word-for-word rendering of the spec's confidence formula (spec section
4.2), for comparison against the implementation `calculateConfidence`:
`clamp((rssi+120)/90*50, 0, 50) + clamp(snr/20*30, 0, 30) +
clamp((10000-|freqError|)/10000*20, 0, 20)`, the sum clamped to [0,100],
computed in exact arithmetic with no intermediate integer truncation. -/
def confidenceSpecScore (rssi snr freqError : ℚ) : ℚ :=
  clampQ (clampQ ((rssi + 120) / 90 * 50) 0 50
          + clampQ (snr / 20 * 30) 0 30
          + clampQ ((10000 - |freqError|) / 10000 * 20) 0 20) 0 100

/-- `analyzeDroneSignal` (non-NULL output record case): builds the detection
record at the band-center frequency, computes the base confidence, attempts
a signature match at the center frequency and, on a hit, marks the record
and applies the flat +20 bonus clamped to 100.  Returns (isDroneSignature,
record). -/
def analyzeDroneSignal (rssi snr freqError : ℚ) (currentMod : ModulationType) :
    Bool × DroneSignal :=
  let signal : DroneSignal :=
    { frequency := FREQ_900_CENTER, rssi := rssi, snr := snr,
      freqError := freqError, modulation := currentMod,
      isDroneSignature := false, confidence := 0, droneType := "Unknown" }
  let signal := { signal with confidence := calculateConfidence rssi snr freqError }
  let matchIndex := matchSignature rssi signal.frequency currentMod
  let signal :=
    if matchIndex ≥ 0 then
      { signal with
        isDroneSignature := true,
        droneType := (knownSignatures.getD matchIndex.toNat defaultSignature).name,
        confidence := min (signal.confidence + 20) 100 }
    else signal
  (signal.isDroneSignature, signal)

/-- `analyzeDroneSignal` with the engine state threaded through: the C
function body reads and writes none of the module globals
(`currentModulation`, `currentSweepFrequency`, `sweepComplete`), so its
effect on the engine state is the identity. -/
def analyzeDroneSignalSt (s : EngineState) (rssi snr freqError : ℚ)
    (currentMod : ModulationType) : (Bool × DroneSignal) × EngineState :=
  (analyzeDroneSignal rssi snr freqError currentMod, s)

/-- `sweepToNextFrequency`: steps the sweep cursor by `SWEEP_STEP_KHZ/1000`
MHz, wraps to the band minimum (setting `sweepComplete`) when the stepped
value exceeds the band maximum, then reconfigures the radio at the new
cursor using the currently active modulation.  `SWEEP_STEP_KHZ` is the
configured step constant; its `#define` is not among these sources, so it is
taken as a parameter.  Result: (returned frequency, surfaced configure
status, final engine state). -/
def sweepToNextFrequency (radio : Option SX1262) (SWEEP_STEP_KHZ : ℚ)
    (s : EngineState) : ℚ × Option Int × EngineState :=
  match radio with
  | none => (s.currentSweepFrequency, none, s)
  | some r =>
    let f1 := s.currentSweepFrequency + SWEEP_STEP_KHZ / 1000
    let s1 :=
      if f1 > FREQ_900_MAX then
        { s with currentSweepFrequency := FREQ_900_MIN, sweepComplete := true }
      else
        { s with currentSweepFrequency := f1 }
    let res :=
      match s1.currentModulation with
      | MOD_LORA => configureLoRaMode (some r) s1.currentSweepFrequency s1
      | MOD_FSK => configureFSKMode (some r) s1.currentSweepFrequency s1
      | MOD_OOK => configureOOKMode (some r) s1.currentSweepFrequency s1
      | MOD_UNKNOWN => configureLoRaMode (some r) s1.currentSweepFrequency s1
    (res.2.currentSweepFrequency, some res.1, res.2)

/-- `resetSweepScan`: unconditionally returns the cursor to the band minimum
and clears `sweepComplete`. -/
def resetSweepScan (s : EngineState) : EngineState :=
  { s with currentSweepFrequency := FREQ_900_MIN, sweepComplete := false }

/-- `isSweepComplete`. -/
def isSweepComplete (s : EngineState) : Bool :=
  s.sweepComplete

/-- `getCurrentSweepFrequency`. -/
def getCurrentSweepFrequency (s : EngineState) : ℚ :=
  s.currentSweepFrequency

/-- Iterated modulation switching: folds `switchToNextModulation` over a
list of (radio handle, frequency) call arguments. -/
def runSwitches (calls : List (Option SX1262 × ℚ)) (s : EngineState) : EngineState :=
  match calls with
  | [] => s
  | c :: rest => runSwitches rest (switchToNextModulation c.1 c.2 s).2.2

/-- n-fold iteration of the sweep step with a fixed (non-NULL) radio handle
and step constant. -/
def sweepIter (r : SX1262) (step : ℚ) : Nat → EngineState → EngineState
  | 0, s => s
  | n + 1, s => sweepIter r step n (sweepToNextFrequency (some r) step s).2.2

/-- Number of wrap events (executions of the `currentSweepFrequency >
FREQ_900_MAX` branch, which sets `sweepComplete`) in `n` sweep steps. -/
def sweepWrapCount (r : SX1262) (step : ℚ) : Nat → EngineState → Nat
  | 0, _ => 0
  | n + 1, s =>
    (if s.currentSweepFrequency + step / 1000 > FREQ_900_MAX then 1 else 0)
    + sweepWrapCount r step n (sweepToNextFrequency (some r) step s).2.2

/-- A radio stub whose every configuration call succeeds. -/
def okRadio : SX1262 :=
  { begin := fun _ _ _ _ => 0, beginFSK := fun _ _ _ _ _ _ _ _ => 0 }

/-- A radio stub whose every configuration call fails with code -2. -/
def failRadio : SX1262 :=
  { begin := fun _ _ _ _ => -2, beginFSK := fun _ _ _ _ _ _ _ _ => -2 }

/-- A concrete engine state: LoRa active, cursor at the band minimum, no
wrap recorded (the state after a successful initialization). -/
def sampleState : EngineState :=
  { currentModulation := MOD_LORA, currentSweepFrequency := 902,
    sweepComplete := false }

/-- A constructed two-entry table of overlapping signatures (same
modulation, overlapping frequency ranges, both RSSI floors satisfiable at
once), used to exhibit the first-match tie-break. -/
def overlapTable : List DroneSignature :=
  [ { name := "overlap A", frequencyMin := 902, frequencyMax := 928,
      modulation := MOD_LORA, bandwidth := 500, minRSSI := -120 },
    { name := "overlap B", frequencyMin := 902, frequencyMax := 928,
      modulation := MOD_LORA, bandwidth := 100, minRSSI := -121 } ]

/-! Helper lemmas (shared; not tied to a single claim). -/

lemma toNat_floor_le (x : ℚ) (n : Nat) (h : x ≤ (n : ℚ)) :
    Int.toNat (Int.floor x) ≤ n := by
  have h2 : (Int.floor x : ℚ) ≤ (n : ℚ) := le_trans (Int.floor_le x) h
  have h1 : Int.floor x ≤ (n : Int) := by exact_mod_cast h2
  omega

lemma rssiTerm_eq (rssi : ℚ) :
    (if rssi > -120 then Int.toNat (Int.floor (min ((rssi + 120) / 90 * 50) 50)) else 0)
      = Int.toNat (Int.floor (clampQ ((rssi + 120) / 90 * 50) 0 50)) := by
  unfold clampQ
  by_cases h : rssi > -120
  · rw [if_pos h, max_eq_right (le_min (by linarith) (by norm_num))]
  · rw [if_neg h]
    push_neg at h
    have hx : (rssi + 120) / 90 * 50 ≤ 0 := by linarith
    rw [min_eq_left (by linarith : (rssi + 120) / 90 * 50 ≤ 50), max_eq_left hx]
    simp

lemma snrTerm_eq (snr : ℚ) :
    (if snr > 0 then Int.toNat (Int.floor (min (snr / 20 * 30) 30)) else 0)
      = Int.toNat (Int.floor (clampQ (snr / 20 * 30) 0 30)) := by
  unfold clampQ
  by_cases h : snr > 0
  · rw [if_pos h, max_eq_right (le_min (by linarith) (by norm_num))]
  · rw [if_neg h]
    push_neg at h
    have hx : snr / 20 * 30 ≤ 0 := by linarith
    rw [min_eq_left (by linarith : snr / 20 * 30 ≤ 30), max_eq_left hx]
    simp

lemma freqTerm_eq (freqError : ℚ) :
    (if |freqError| < 10000 then
        Int.toNat (Int.floor (max ((10000 - |freqError|) / 10000 * 20) 0)) else 0)
      = Int.toNat (Int.floor (clampQ ((10000 - |freqError|) / 10000 * 20) 0 20)) := by
  unfold clampQ
  have haf : 0 ≤ |freqError| := abs_nonneg _
  by_cases h : |freqError| < 10000
  · rw [if_pos h]
    have hx0 : 0 ≤ (10000 - |freqError|) / 10000 * 20 := by linarith
    have hx20 : (10000 - |freqError|) / 10000 * 20 ≤ 20 := by linarith
    rw [max_eq_left hx0, min_eq_left hx20, max_eq_right hx0]
  · rw [if_neg h]
    push_neg at h
    have hx : (10000 - |freqError|) / 10000 * 20 ≤ 0 := by linarith
    rw [min_eq_left (by linarith : (10000 - |freqError|) / 10000 * 20 ≤ 20), max_eq_left hx]
    simp

/-! Claim theorems. -/

/-- C10: `analyzeDroneSignal` leaves the engine state (active modulation,
sweep cursor, sweep-wrapped flag) unchanged, and the detection record
depends only on the given arguments. -/
theorem analyze_frame_and_determinism (s : EngineState) (rssi snr freqError : ℚ)
    (m : ModulationType) :
    (analyzeDroneSignalSt s rssi snr freqError m).2 = s ∧
    ∀ s₂ : EngineState,
      (analyzeDroneSignalSt s₂ rssi snr freqError m).1 =
      (analyzeDroneSignalSt s rssi snr freqError m).1 :=
  ⟨rfl, fun _ => rfl⟩

/-- C8: classifying rssi = −110 dBm, snr = 5 dB, freqError = 500 Hz under
LoRa against the built-in table yields a match named "ExpressLRS 900" with
confidence = base score + 20 clamped to 100 (concretely 51). -/
theorem classify_lora_expresslrs_match :
    (analyzeDroneSignal (-110) 5 500 MOD_LORA).1 = true ∧
    (analyzeDroneSignal (-110) 5 500 MOD_LORA).2.isDroneSignature = true ∧
    (analyzeDroneSignal (-110) 5 500 MOD_LORA).2.droneType = "ExpressLRS 900" ∧
    (analyzeDroneSignal (-110) 5 500 MOD_LORA).2.confidence =
      min (calculateConfidence (-110) 5 500 + 20) 100 ∧
    (analyzeDroneSignal (-110) 5 500 MOD_LORA).2.confidence = 51 := by
  refine ⟨?_, ?_, ?_, ?_, ?_⟩ <;>
    · norm_num [analyzeDroneSignal, calculateConfidence, matchSignature,
        matchSignatureGo, knownSignatures, FREQ_900_CENTER, List.getD]
      try decide

/-- C9: classifying rssi = −140 dBm, snr = −5 dB, freqError = 50000 Hz under
FSK yields no match, name "Unknown" and confidence 0. -/
theorem classify_fsk_no_match :
    (analyzeDroneSignal (-140) (-5) 50000 MOD_FSK).1 = false ∧
    (analyzeDroneSignal (-140) (-5) 50000 MOD_FSK).2.isDroneSignature = false ∧
    (analyzeDroneSignal (-140) (-5) 50000 MOD_FSK).2.droneType = "Unknown" ∧
    (analyzeDroneSignal (-140) (-5) 50000 MOD_FSK).2.confidence = 0 := by
  refine ⟨?_, ?_, ?_, ?_⟩ <;>
    norm_num [analyzeDroneSignal, calculateConfidence, matchSignature,
      matchSignatureGo, knownSignatures, FREQ_900_CENTER]

/-- C3 counterexample: at rssi = −119, snr = 0, freqError = 10000 the
implementation returns 0 while the spec's exact clamped-sum formula gives
5/9, so the claimed equality fails. -/
theorem confidence_spec_formula_cex :
    ((calculateConfidence (-119) 0 10000 : ℚ) ≠ confidenceSpecScore (-119) 0 10000) ∧
    calculateConfidence (-119) 0 10000 = 0 ∧
    confidenceSpecScore (-119) 0 10000 = 5 / 9 := by
  refine ⟨?_, ?_, ?_⟩ <;>
    norm_num [calculateConfidence, confidenceSpecScore, clampQ]

/-- C3 (amended): the confidence equals the sum of the three spec-clamped
terms with each term truncated to an integer (floor) before adding, the
total clamped to [0, 100]. -/
theorem confidence_eq_sum_of_truncated_clamped_terms (rssi snr freqError : ℚ) :
    calculateConfidence rssi snr freqError =
      min (Int.toNat (Int.floor (clampQ ((rssi + 120) / 90 * 50) 0 50))
         + Int.toNat (Int.floor (clampQ (snr / 20 * 30) 0 30))
         + Int.toNat (Int.floor (clampQ ((10000 - |freqError|) / 10000 * 20) 0 20))) 100 := by
  have b1 : Int.toNat (Int.floor (min ((rssi + 120) / 90 * 50) 50)) ≤ 50 :=
    toNat_floor_le _ 50 (by exact_mod_cast min_le_right ((rssi + 120) / 90 * 50) (50 : ℚ))
  have b2 : Int.toNat (Int.floor (min (snr / 20 * 30) 30)) ≤ 30 :=
    toNat_floor_le _ 30 (by exact_mod_cast min_le_right (snr / 20 * 30) (30 : ℚ))
  have b3 : Int.toNat (Int.floor (max ((10000 - |freqError|) / 10000 * 20) 0)) ≤ 20 := by
    refine toNat_floor_le _ 20 ?_
    have haf : 0 ≤ |freqError| := abs_nonneg _
    have hx20 : (10000 - |freqError|) / 10000 * 20 ≤ 20 := by linarith
    push_cast
    exact max_le hx20 (by norm_num)
  rw [← rssiTerm_eq rssi, ← snrTerm_eq snr, ← freqTerm_eq freqError]
  simp only [calculateConfidence]
  split_ifs with h1 h2 h3 <;> omega

lemma configureLoRaMode_cursor (radio : Option SX1262) (f : ℚ) (s : EngineState) :
    (configureLoRaMode radio f s).2.currentSweepFrequency = s.currentSweepFrequency := by
  cases radio with
  | none => rfl
  | some r =>
    simp only [configureLoRaMode]
    split <;> rfl

lemma configureLoRaMode_flag (radio : Option SX1262) (f : ℚ) (s : EngineState) :
    (configureLoRaMode radio f s).2.sweepComplete = s.sweepComplete := by
  cases radio with
  | none => rfl
  | some r =>
    simp only [configureLoRaMode]
    split <;> rfl

lemma configureFSKMode_cursor (radio : Option SX1262) (f : ℚ) (s : EngineState) :
    (configureFSKMode radio f s).2.currentSweepFrequency = s.currentSweepFrequency := by
  cases radio with
  | none => rfl
  | some r =>
    simp only [configureFSKMode]
    split <;> rfl

lemma configureFSKMode_flag (radio : Option SX1262) (f : ℚ) (s : EngineState) :
    (configureFSKMode radio f s).2.sweepComplete = s.sweepComplete := by
  cases radio with
  | none => rfl
  | some r =>
    simp only [configureFSKMode]
    split <;> rfl

lemma configureOOKMode_cursor (radio : Option SX1262) (f : ℚ) (s : EngineState) :
    (configureOOKMode radio f s).2.currentSweepFrequency = s.currentSweepFrequency := by
  cases radio with
  | none => rfl
  | some r =>
    simp only [configureOOKMode]
    split <;> rfl

lemma configureOOKMode_flag (radio : Option SX1262) (f : ℚ) (s : EngineState) :
    (configureOOKMode radio f s).2.sweepComplete = s.sweepComplete := by
  cases radio with
  | none => rfl
  | some r =>
    simp only [configureOOKMode]
    split <;> rfl

lemma sweep_cursor_eq (r : SX1262) (k : ℚ) (s : EngineState) :
    (sweepToNextFrequency (some r) k s).2.2.currentSweepFrequency =
      (if s.currentSweepFrequency + k / 1000 > FREQ_900_MAX then FREQ_900_MIN
       else s.currentSweepFrequency + k / 1000) := by
  by_cases hw : s.currentSweepFrequency + k / 1000 > FREQ_900_MAX <;>
    cases hm : s.currentModulation <;>
      simp [sweepToNextFrequency, hw, hm, configureLoRaMode_cursor,
        configureFSKMode_cursor, configureOOKMode_cursor]

lemma sweep_flag_eq (r : SX1262) (k : ℚ) (s : EngineState) :
    (sweepToNextFrequency (some r) k s).2.2.sweepComplete =
      (if s.currentSweepFrequency + k / 1000 > FREQ_900_MAX then true
       else s.sweepComplete) := by
  by_cases hw : s.currentSweepFrequency + k / 1000 > FREQ_900_MAX <;>
    cases hm : s.currentModulation <;>
      simp [sweepToNextFrequency, hw, hm, configureLoRaMode_flag,
        configureFSKMode_flag, configureOOKMode_flag]

lemma sweep_ret_eq (r : SX1262) (k : ℚ) (s : EngineState) :
    (sweepToNextFrequency (some r) k s).1 =
      (sweepToNextFrequency (some r) k s).2.2.currentSweepFrequency := by
  by_cases hw : s.currentSweepFrequency + k / 1000 > FREQ_900_MAX <;>
    cases hm : s.currentModulation <;>
      simp [sweepToNextFrequency, hw, hm]

/-- C2: when the radio reconfiguration attempted by `switchToNextModulation`
fails (nonzero status), the active modulation is unchanged and the returned
value is the unchanged modulation, for every starting modulation in
LoRa, FSK, OOK. -/
theorem switch_failure_keeps_active_modulation (r : SX1262) (frequency : ℚ)
    (s : EngineState)
    (hmod : s.currentModulation = MOD_LORA ∨ s.currentModulation = MOD_FSK ∨
      s.currentModulation = MOD_OOK)
    (code : Int)
    (hst : (switchToNextModulation (some r) frequency s).2.1 = some code)
    (hfail : code ≠ 0) :
    (switchToNextModulation (some r) frequency s).1 = s.currentModulation ∧
    (switchToNextModulation (some r) frequency s).2.2.currentModulation =
      s.currentModulation := by
  rcases hmod with hm | hm | hm
  · simp only [switchToNextModulation, hm] at hst ⊢
    by_cases hz : r.beginFSK frequency FSK_BITRATE FSK_FREQUENCY_DEV
        FSK_RX_BANDWIDTH 14 FSK_PREAMBLE_LEN 1.6 false = RADIOLIB_ERR_NONE
    · simp [configureFSKMode, hz, RADIOLIB_ERR_NONE] at hst
      exfalso
      omega
    · simp [configureFSKMode, hz, hm]
  · simp only [switchToNextModulation, hm] at hst ⊢
    by_cases hz : r.beginFSK frequency OOK_BITRATE 0
        OOK_RX_BANDWIDTH 14 16 1.6 false = RADIOLIB_ERR_NONE
    · simp [configureOOKMode, hz, RADIOLIB_ERR_NONE] at hst
      exfalso
      omega
    · simp [configureOOKMode, hz, hm]
  · simp only [switchToNextModulation, hm] at hst ⊢
    by_cases hz : r.begin frequency LORA_BANDWIDTH LORA_SPREADING_FACTOR
        LORA_CODING_RATE = RADIOLIB_ERR_NONE
    · simp [configureLoRaMode, hz, RADIOLIB_ERR_NONE] at hst
      exfalso
      omega
    · simp [configureLoRaMode, hz, hm]

/-- C2 witness: with an always-failing radio and the LoRa sample state, the
switch reports failure and both the return value and the state keep LoRa. -/
theorem switch_failure_keeps_active_modulation_witness :
    (switchToNextModulation (some failRadio) 915 sampleState).1 =
      sampleState.currentModulation ∧
    (switchToNextModulation (some failRadio) 915 sampleState).2.2.currentModulation =
      sampleState.currentModulation :=
  switch_failure_keeps_active_modulation failRadio 915 sampleState (Or.inl rfl) (-2)
    (by norm_num [switchToNextModulation, sampleState, configureFSKMode, failRadio,
      RADIOLIB_ERR_NONE]) (by norm_num)

/-- C1 counterexample: with an always-failing radio, a sweep step reports
the failure yet `currentSweepFrequency` differs from its pre-call value —
the cursor is stepped before the configure attempt and is not rolled back. -/
theorem sweep_step_failure_changes_cursor_cex :
    (sweepToNextFrequency (some failRadio) 100 sampleState).2.1 = some (-2) ∧
    ((-2 : Int) ≠ 0) ∧
    (sweepToNextFrequency (some failRadio) 100 sampleState).2.2.currentSweepFrequency ≠
      sampleState.currentSweepFrequency := by
  refine ⟨?_, by norm_num, ?_⟩ <;>
    norm_num [sweepToNextFrequency, sampleState, failRadio, configureLoRaMode,
      FREQ_900_MAX, FREQ_900_MIN, RADIOLIB_ERR_NONE]

/-- C1 (amended): when the configure call made during a sweep step fails,
the failure is reported (the nonzero status is surfaced), but
`currentSweepFrequency` holds the already-advanced value — the pre-call
cursor plus the step, or the band minimum if that stepped value wrapped —
and the stepped value is what the call returns. -/
theorem sweep_step_failure_reports_and_keeps_stepped_cursor (r : SX1262) (k : ℚ)
    (s : EngineState) (code : Int)
    (_hst : (sweepToNextFrequency (some r) k s).2.1 = some code)
    (_hfail : code ≠ 0) :
    (sweepToNextFrequency (some r) k s).2.2.currentSweepFrequency =
      (if s.currentSweepFrequency + k / 1000 > FREQ_900_MAX then FREQ_900_MIN
       else s.currentSweepFrequency + k / 1000) ∧
    (sweepToNextFrequency (some r) k s).1 =
      (sweepToNextFrequency (some r) k s).2.2.currentSweepFrequency :=
  ⟨sweep_cursor_eq r k s, sweep_ret_eq r k s⟩

/-- C1 witness: the amended statement instantiated with the failing radio at
the sample state, step 100 kHz, failure code -2. -/
theorem sweep_step_failure_witness :
    (sweepToNextFrequency (some failRadio) 100 sampleState).2.2.currentSweepFrequency =
      (if sampleState.currentSweepFrequency + 100 / 1000 > FREQ_900_MAX then FREQ_900_MIN
       else sampleState.currentSweepFrequency + 100 / 1000) ∧
    (sweepToNextFrequency (some failRadio) 100 sampleState).1 =
      (sweepToNextFrequency (some failRadio) 100 sampleState).2.2.currentSweepFrequency :=
  sweep_step_failure_reports_and_keeps_stepped_cursor failRadio 100 sampleState (-2)
    (by norm_num [sweepToNextFrequency, sampleState, failRadio, configureLoRaMode,
      FREQ_900_MAX, RADIOLIB_ERR_NONE]) (by norm_num)

lemma sigMatches_false_of_mod {sig : DroneSignature} {m : ModulationType}
    (h : sig.modulation ≠ m) (rssi f : ℚ) :
    sigMatches sig rssi f m = false := by
  simp [sigMatches, h]

lemma sigMatches_false_of_freq {sig : DroneSignature} (f : ℚ)
    (h : f < sig.frequencyMin ∨ f > sig.frequencyMax) (rssi : ℚ) (m : ModulationType) :
    sigMatches sig rssi f m = false := by
  rcases h with h | h
  · have h' : ¬ sig.frequencyMin ≤ f := not_le.mpr h
    simp [sigMatches, h']
  · have h' : ¬ f ≤ sig.frequencyMax := not_le.mpr h
    simp [sigMatches, h']

lemma sigMatches_false_of_rssi {sig : DroneSignature} (rssi : ℚ)
    (h : rssi < sig.minRSSI) (f : ℚ) (m : ModulationType) :
    sigMatches sig rssi f m = false := by
  have h' : ¬ sig.minRSSI ≤ rssi := not_le.mpr h
  simp [sigMatches, h']

lemma sigMatches_true_of {sig : DroneSignature} {rssi f : ℚ} {m : ModulationType}
    (h1 : ¬ sig.modulation ≠ m)
    (h2 : ¬ (f < sig.frequencyMin ∨ f > sig.frequencyMax))
    (h3 : ¬ rssi < sig.minRSSI) :
    sigMatches sig rssi f m = true := by
  push_neg at h1 h2 h3
  simp [sigMatches, h1, h2.1, h2.2, h3]

lemma matchSignatureGo_neg_one_iff (rssi f : ℚ) (m : ModulationType) :
    ∀ (table : List DroneSignature) (i : Nat),
      (matchSignatureGo rssi f m table i = -1 ↔
        ∀ sig ∈ table, sigMatches sig rssi f m = false) := by
  intro table
  induction table with
  | nil =>
    intro i
    simp [matchSignatureGo]
  | cons sig rest ih =>
    intro i
    simp only [matchSignatureGo]
    by_cases h1 : sig.modulation ≠ m
    · rw [if_pos h1, ih (i + 1), List.forall_mem_cons]
      simp [sigMatches_false_of_mod h1]
    · rw [if_neg h1]
      by_cases h2 : f < sig.frequencyMin ∨ f > sig.frequencyMax
      · rw [if_pos h2, ih (i + 1), List.forall_mem_cons]
        simp [sigMatches_false_of_freq f h2]
      · rw [if_neg h2]
        by_cases h3 : rssi < sig.minRSSI
        · rw [if_pos h3, ih (i + 1), List.forall_mem_cons]
          simp [sigMatches_false_of_rssi rssi h3]
        · rw [if_neg h3]
          have htrue := sigMatches_true_of h1 h2 h3
          constructor
          · intro hc
            exact absurd hc (by omega)
          · intro hall
            have hh := (List.forall_mem_cons.mp hall).1
            rw [htrue] at hh
            exact absurd hh (by simp)

lemma matchSignatureGo_ge (rssi f : ℚ) (m : ModulationType) :
    ∀ (table : List DroneSignature) (i : Nat),
      matchSignatureGo rssi f m table i = -1 ∨
      ((i : Int) ≤ matchSignatureGo rssi f m table i) := by
  intro table
  induction table with
  | nil =>
    intro i
    left
    rfl
  | cons sig rest ih =>
    intro i
    simp only [matchSignatureGo]
    split_ifs <;> rcases ih (i + 1) with h | h <;>
      first
        | exact Or.inl h
        | (right ; omega)

lemma matchSignatureGo_spec (rssi f : ℚ) (m : ModulationType) :
    ∀ (table : List DroneSignature) (i n : Nat),
      matchSignatureGo rssi f m table i = ((i + n : Nat) : Int) →
      n < table.length ∧
      sigMatches (table.getD n defaultSignature) rssi f m = true ∧
      ∀ j, j < n → sigMatches (table.getD j defaultSignature) rssi f m = false := by
  intro table
  induction table with
  | nil =>
    intro i n h
    exfalso
    simp only [matchSignatureGo] at h
    omega
  | cons sig rest ih =>
    intro i n h
    simp only [matchSignatureGo] at h
    by_cases h1 : sig.modulation ≠ m
    · rw [if_pos h1] at h
      have hge := matchSignatureGo_ge rssi f m rest (i + 1)
      have hn : 1 ≤ n := by rcases hge with hg | hg <;> omega
      obtain ⟨n', rfl⟩ : ∃ n', n = n' + 1 := ⟨n - 1, by omega⟩
      have h' : matchSignatureGo rssi f m rest (i + 1) = (((i + 1) + n' : Nat) : Int) := by
        rw [h]
        congr 1
        omega
      obtain ⟨hl, hmatch, hall⟩ := ih (i + 1) n' h'
      refine ⟨by simp only [List.length_cons]; omega, by simpa using hmatch, ?_⟩
      intro j hj
      cases j with
      | zero => simpa using sigMatches_false_of_mod h1 rssi f
      | succ j' =>
        have hj' : j' < n' := by omega
        simpa using hall j' hj'
    · rw [if_neg h1] at h
      by_cases h2 : f < sig.frequencyMin ∨ f > sig.frequencyMax
      · rw [if_pos h2] at h
        have hge := matchSignatureGo_ge rssi f m rest (i + 1)
        have hn : 1 ≤ n := by rcases hge with hg | hg <;> omega
        obtain ⟨n', rfl⟩ : ∃ n', n = n' + 1 := ⟨n - 1, by omega⟩
        have h' : matchSignatureGo rssi f m rest (i + 1) = (((i + 1) + n' : Nat) : Int) := by
          rw [h]
          congr 1
          omega
        obtain ⟨hl, hmatch, hall⟩ := ih (i + 1) n' h'
        refine ⟨by simp only [List.length_cons]; omega, by simpa using hmatch, ?_⟩
        intro j hj
        cases j with
        | zero => simpa using sigMatches_false_of_freq f h2 rssi m
        | succ j' =>
          have hj' : j' < n' := by omega
          simpa using hall j' hj'
      · rw [if_neg h2] at h
        by_cases h3 : rssi < sig.minRSSI
        · rw [if_pos h3] at h
          have hge := matchSignatureGo_ge rssi f m rest (i + 1)
          have hn : 1 ≤ n := by rcases hge with hg | hg <;> omega
          obtain ⟨n', rfl⟩ : ∃ n', n = n' + 1 := ⟨n - 1, by omega⟩
          have h' : matchSignatureGo rssi f m rest (i + 1) = (((i + 1) + n' : Nat) : Int) := by
            rw [h]
            congr 1
            omega
          obtain ⟨hl, hmatch, hall⟩ := ih (i + 1) n' h'
          refine ⟨by simp only [List.length_cons]; omega, by simpa using hmatch, ?_⟩
          intro j hj
          cases j with
          | zero => simpa using sigMatches_false_of_rssi rssi h3 f m
          | succ j' =>
            have hj' : j' < n' := by omega
            simpa using hall j' hj'
        · rw [if_neg h3] at h
          have hn : n = 0 := by omega
          subst hn
          refine ⟨by simp, by simpa using sigMatches_true_of h1 h2 h3, ?_⟩
          intro j hj
          omega

/-- C4: for every signature table, the first-match scan returns the first
entry in declaration order whose modulation matches, whose inclusive
frequency range contains the query and whose RSSI floor is met; it returns
-1 exactly when no entry satisfies all three conditions, so of two
overlapping satisfying entries the earlier one wins.  `matchSignature` is
this scan over `knownSignatures`. -/
theorem matchSignature_first_match_semantics (table : List DroneSignature)
    (rssi frequency : ℚ) (m : ModulationType) :
    (matchSignatureGo rssi frequency m table 0 = -1 ↔
      ∀ sig ∈ table, sigMatches sig rssi frequency m = false) ∧
    (∀ n : Nat, matchSignatureGo rssi frequency m table 0 = (n : Int) →
      n < table.length ∧
      sigMatches (table.getD n defaultSignature) rssi frequency m = true ∧
      ∀ j, j < n → sigMatches (table.getD j defaultSignature) rssi frequency m = false) ∧
    matchSignature rssi frequency m = matchSignatureGo rssi frequency m knownSignatures 0 := by
  refine ⟨matchSignatureGo_neg_one_iff rssi frequency m table 0, ?_, rfl⟩
  intro n h
  exact matchSignatureGo_spec rssi frequency m table 0 n (by simpa using h)

/-- C4 witness: on a constructed two-entry table where both overlapping
entries are satisfied, the scan returns index 0 and the theorem certifies
the hit entry; the second entry is also satisfied, so the earlier one won. -/
theorem matchSignature_first_match_semantics_witness :
    (0 < overlapTable.length ∧
     sigMatches (overlapTable.getD 0 defaultSignature) (-50) 915 MOD_LORA = true) ∧
    sigMatches (overlapTable.getD 1 defaultSignature) (-50) 915 MOD_LORA = true ∧
    matchSignatureGo (-50) 915 MOD_LORA overlapTable 0 = 0 := by
  have h := (matchSignature_first_match_semantics overlapTable (-50) 915 MOD_LORA).2.1 0
    (by norm_num [matchSignatureGo, overlapTable])
  refine ⟨⟨h.1, h.2.1⟩, ?_, ?_⟩
  · norm_num [sigMatches, overlapTable, List.getD]
  · norm_num [matchSignatureGo, overlapTable]

lemma modeq_lora_fsk : (MOD_LORA = MOD_FSK) ↔ False := iff_false_intro (by decide)

lemma modeq_lora_ook : (MOD_LORA = MOD_OOK) ↔ False := iff_false_intro (by decide)

lemma modeq_lora_unknown : (MOD_LORA = MOD_UNKNOWN) ↔ False := iff_false_intro (by decide)

lemma modeq_fsk_lora : (MOD_FSK = MOD_LORA) ↔ False := iff_false_intro (by decide)

lemma modeq_fsk_ook : (MOD_FSK = MOD_OOK) ↔ False := iff_false_intro (by decide)

lemma modeq_fsk_unknown : (MOD_FSK = MOD_UNKNOWN) ↔ False := iff_false_intro (by decide)

lemma modeq_ook_lora : (MOD_OOK = MOD_LORA) ↔ False := iff_false_intro (by decide)

lemma modeq_ook_fsk : (MOD_OOK = MOD_FSK) ↔ False := iff_false_intro (by decide)

lemma modeq_ook_unknown : (MOD_OOK = MOD_UNKNOWN) ↔ False := iff_false_intro (by decide)

/-- C5: since the seven built-in entries share the frequency range
[902, 928] and matching is first-match-wins, a successful `matchSignature`
on an in-band frequency can only return entry 0 ("ExpressLRS 900") for
LoRa, entry 2 ("TBS Crossfire", the lowest FSK floor, declared first) for
FSK, or entry 6 ("OOK Remote") for OOK; entries 1, 3, 4, 5 ("ELRS 900
Narrow", "RFD900/SiK", "FrSky R9", "FSK Telemetry") are never returned by
any query. -/
theorem matchSignature_reachable_entries (frequency rssi : ℚ) :
    (∀ m : ModulationType,
      matchSignature rssi frequency m ≠ 1 ∧ matchSignature rssi frequency m ≠ 3 ∧
      matchSignature rssi frequency m ≠ 4 ∧ matchSignature rssi frequency m ≠ 5) ∧
    (FREQ_900_MIN ≤ frequency → frequency ≤ FREQ_900_MAX →
      (matchSignature rssi frequency MOD_LORA = 0 ∨
       matchSignature rssi frequency MOD_LORA = -1) ∧
      (matchSignature rssi frequency MOD_FSK = 2 ∨
       matchSignature rssi frequency MOD_FSK = -1) ∧
      (matchSignature rssi frequency MOD_OOK = 6 ∨
       matchSignature rssi frequency MOD_OOK = -1)) ∧
    (knownSignatures.getD 0 defaultSignature).name = "ExpressLRS 900" ∧
    (knownSignatures.getD 2 defaultSignature).name = "TBS Crossfire" ∧
    (knownSignatures.getD 6 defaultSignature).name = "OOK Remote" := by
  refine ⟨?_, ?_, rfl, rfl, rfl⟩
  · intro m
    cases m
    case MOD_LORA =>
      by_cases hf : frequency < 902 ∨ frequency > 928
      · norm_num [matchSignature, matchSignatureGo, knownSignatures, modeq_lora_fsk, modeq_lora_ook, modeq_lora_unknown, modeq_fsk_lora, modeq_fsk_ook, modeq_fsk_unknown, modeq_ook_lora, modeq_ook_fsk, modeq_ook_unknown, hf]
      · by_cases hr : rssi < -120
        · have hr2 : rssi < -115 := by linarith
          norm_num [matchSignature, matchSignatureGo, knownSignatures, modeq_lora_fsk, modeq_lora_ook, modeq_lora_unknown, modeq_fsk_lora, modeq_fsk_ook, modeq_fsk_unknown, modeq_ook_lora, modeq_ook_fsk, modeq_ook_unknown, hf, hr, hr2]
        · norm_num [matchSignature, matchSignatureGo, knownSignatures, modeq_lora_fsk, modeq_lora_ook, modeq_lora_unknown, modeq_fsk_lora, modeq_fsk_ook, modeq_fsk_unknown, modeq_ook_lora, modeq_ook_fsk, modeq_ook_unknown, hf, hr]
    case MOD_FSK =>
      by_cases hf : frequency < 902 ∨ frequency > 928
      · norm_num [matchSignature, matchSignatureGo, knownSignatures, modeq_lora_fsk, modeq_lora_ook, modeq_lora_unknown, modeq_fsk_lora, modeq_fsk_ook, modeq_fsk_unknown, modeq_ook_lora, modeq_ook_fsk, modeq_ook_unknown, hf]
      · by_cases hr : rssi < -130
        · have hr2 : rssi < -121 := by linarith
          have hr3 : rssi < -110 := by linarith
          norm_num [matchSignature, matchSignatureGo, knownSignatures, modeq_lora_fsk, modeq_lora_ook, modeq_lora_unknown, modeq_fsk_lora, modeq_fsk_ook, modeq_fsk_unknown, modeq_ook_lora, modeq_ook_fsk, modeq_ook_unknown, hf, hr, hr2, hr3]
        · norm_num [matchSignature, matchSignatureGo, knownSignatures, modeq_lora_fsk, modeq_lora_ook, modeq_lora_unknown, modeq_fsk_lora, modeq_fsk_ook, modeq_fsk_unknown, modeq_ook_lora, modeq_ook_fsk, modeq_ook_unknown, hf, hr]
    case MOD_OOK =>
      by_cases hf : frequency < 902 ∨ frequency > 928
      · norm_num [matchSignature, matchSignatureGo, knownSignatures, modeq_lora_fsk, modeq_lora_ook, modeq_lora_unknown, modeq_fsk_lora, modeq_fsk_ook, modeq_fsk_unknown, modeq_ook_lora, modeq_ook_fsk, modeq_ook_unknown, hf]
      · by_cases hr : rssi < -100
        · norm_num [matchSignature, matchSignatureGo, knownSignatures, modeq_lora_fsk, modeq_lora_ook, modeq_lora_unknown, modeq_fsk_lora, modeq_fsk_ook, modeq_fsk_unknown, modeq_ook_lora, modeq_ook_fsk, modeq_ook_unknown, hf, hr]
        · norm_num [matchSignature, matchSignatureGo, knownSignatures, modeq_lora_fsk, modeq_lora_ook, modeq_lora_unknown, modeq_fsk_lora, modeq_fsk_ook, modeq_fsk_unknown, modeq_ook_lora, modeq_ook_fsk, modeq_ook_unknown, hf, hr]
    case MOD_UNKNOWN =>
      norm_num [matchSignature, matchSignatureGo, knownSignatures, modeq_lora_fsk, modeq_lora_ook, modeq_lora_unknown, modeq_fsk_lora, modeq_fsk_ook, modeq_fsk_unknown, modeq_ook_lora, modeq_ook_fsk, modeq_ook_unknown]
  · intro h1 h2
    rw [FREQ_900_MIN] at h1
    rw [FREQ_900_MAX] at h2
    have hf : ¬ (frequency < 902 ∨ frequency > 928) := by
      push_neg
      constructor <;> linarith
    refine ⟨?_, ?_, ?_⟩
    · by_cases hr : rssi < -120
      · have hr2 : rssi < -115 := by linarith
        right
        norm_num [matchSignature, matchSignatureGo, knownSignatures, modeq_lora_fsk, modeq_lora_ook, modeq_lora_unknown, modeq_fsk_lora, modeq_fsk_ook, modeq_fsk_unknown, modeq_ook_lora, modeq_ook_fsk, modeq_ook_unknown, hf, hr, hr2]
      · left
        norm_num [matchSignature, matchSignatureGo, knownSignatures, modeq_lora_fsk, modeq_lora_ook, modeq_lora_unknown, modeq_fsk_lora, modeq_fsk_ook, modeq_fsk_unknown, modeq_ook_lora, modeq_ook_fsk, modeq_ook_unknown, hf, hr]
    · by_cases hr : rssi < -130
      · have hr2 : rssi < -121 := by linarith
        have hr3 : rssi < -110 := by linarith
        right
        norm_num [matchSignature, matchSignatureGo, knownSignatures, modeq_lora_fsk, modeq_lora_ook, modeq_lora_unknown, modeq_fsk_lora, modeq_fsk_ook, modeq_fsk_unknown, modeq_ook_lora, modeq_ook_fsk, modeq_ook_unknown, hf, hr, hr2, hr3]
      · left
        norm_num [matchSignature, matchSignatureGo, knownSignatures, modeq_lora_fsk, modeq_lora_ook, modeq_lora_unknown, modeq_fsk_lora, modeq_fsk_ook, modeq_fsk_unknown, modeq_ook_lora, modeq_ook_fsk, modeq_ook_unknown, hf, hr]
    · by_cases hr : rssi < -100
      · right
        norm_num [matchSignature, matchSignatureGo, knownSignatures, modeq_lora_fsk, modeq_lora_ook, modeq_lora_unknown, modeq_fsk_lora, modeq_fsk_ook, modeq_fsk_unknown, modeq_ook_lora, modeq_ook_fsk, modeq_ook_unknown, hf, hr]
      · left
        norm_num [matchSignature, matchSignatureGo, knownSignatures, modeq_lora_fsk, modeq_lora_ook, modeq_lora_unknown, modeq_fsk_lora, modeq_fsk_ook, modeq_fsk_unknown, modeq_ook_lora, modeq_ook_fsk, modeq_ook_unknown, hf, hr]

/-- C5 witness: at frequency 915 and rssi -110, LoRa matching avoids entry 1
and lands on entry 0 or no-match (here entry 0). -/
theorem matchSignature_reachable_entries_witness :
    matchSignature (-110) 915 MOD_LORA ≠ 1 ∧
    (matchSignature (-110) 915 MOD_LORA = 0 ∨
     matchSignature (-110) 915 MOD_LORA = -1) := by
  refine ⟨((matchSignature_reachable_entries 915 (-110)).1 MOD_LORA).1, ?_⟩
  exact ((matchSignature_reachable_entries 915 (-110)).2.1
    (by norm_num [FREQ_900_MIN]) (by norm_num [FREQ_900_MAX])).1

lemma switch_preserves_not_unknown (radio : Option SX1262) (freq : ℚ) (s : EngineState)
    (h : s.currentModulation ≠ MOD_UNKNOWN) :
    (switchToNextModulation radio freq s).2.2.currentModulation ≠ MOD_UNKNOWN := by
  cases radio with
  | none => simpa [switchToNextModulation] using h
  | some r =>
    cases hm : s.currentModulation
    case MOD_UNKNOWN => exact absurd hm h
    case MOD_LORA =>
      by_cases hz : r.beginFSK freq FSK_BITRATE FSK_FREQUENCY_DEV
          FSK_RX_BANDWIDTH 14 FSK_PREAMBLE_LEN 1.6 false = RADIOLIB_ERR_NONE
      · simp [switchToNextModulation, hm, configureFSKMode, hz, modeq_fsk_unknown]
      · simp [switchToNextModulation, hm, configureFSKMode, hz, modeq_lora_unknown]
    case MOD_FSK =>
      by_cases hz : r.beginFSK freq OOK_BITRATE 0
          OOK_RX_BANDWIDTH 14 16 1.6 false = RADIOLIB_ERR_NONE
      · simp [switchToNextModulation, hm, configureOOKMode, hz, modeq_ook_unknown]
      · simp [switchToNextModulation, hm, configureOOKMode, hz, modeq_fsk_unknown]
    case MOD_OOK =>
      by_cases hz : r.begin freq LORA_BANDWIDTH LORA_SPREADING_FACTOR
          LORA_CODING_RATE = RADIOLIB_ERR_NONE
      · simp [switchToNextModulation, hm, configureLoRaMode, hz, modeq_lora_unknown]
      · simp [switchToNextModulation, hm, configureLoRaMode, hz, modeq_ook_unknown]

lemma runSwitches_not_unknown : ∀ (calls : List (Option SX1262 × ℚ)) (s : EngineState),
    s.currentModulation ≠ MOD_UNKNOWN →
    (runSwitches calls s).currentModulation ≠ MOD_UNKNOWN := by
  intro calls
  induction calls with
  | nil =>
    intro s h
    simpa [runSwitches] using h
  | cons c rest ih =>
    intro s h
    simp only [runSwitches]
    exact ih _ (switch_preserves_not_unknown c.1 c.2 s h)

/-- C6: each `switchToNextModulation` whose radio reconfiguration succeeds
advances the active modulation exactly one step along the fixed cycle
LoRa→FSK→OOK→LoRa, and over any number of calls (with arbitrary radio
handles and outcomes) the active modulation never becomes Unknown, for
every non-Unknown starting state. -/
theorem modulation_cycle_and_never_unknown (s : EngineState)
    (h : s.currentModulation ≠ MOD_UNKNOWN) :
    (∀ (r : SX1262) (f : ℚ),
      (switchToNextModulation (some r) f s).2.1 = some 0 →
      ((s.currentModulation = MOD_LORA →
          (switchToNextModulation (some r) f s).1 = MOD_FSK ∧
          (switchToNextModulation (some r) f s).2.2.currentModulation = MOD_FSK) ∧
       (s.currentModulation = MOD_FSK →
          (switchToNextModulation (some r) f s).1 = MOD_OOK ∧
          (switchToNextModulation (some r) f s).2.2.currentModulation = MOD_OOK) ∧
       (s.currentModulation = MOD_OOK →
          (switchToNextModulation (some r) f s).1 = MOD_LORA ∧
          (switchToNextModulation (some r) f s).2.2.currentModulation = MOD_LORA))) ∧
    (∀ calls : List (Option SX1262 × ℚ),
      (runSwitches calls s).currentModulation ≠ MOD_UNKNOWN) := by
  constructor
  · intro r f hst
    refine ⟨?_, ?_, ?_⟩
    · intro hm
      by_cases hz : r.beginFSK f FSK_BITRATE FSK_FREQUENCY_DEV
          FSK_RX_BANDWIDTH 14 FSK_PREAMBLE_LEN 1.6 false = RADIOLIB_ERR_NONE
      · constructor <;> simp [switchToNextModulation, hm, configureFSKMode, hz]
      · exfalso
        rw [RADIOLIB_ERR_NONE] at hz
        simp [switchToNextModulation, hm, configureFSKMode, RADIOLIB_ERR_NONE, hz] at hst
    · intro hm
      by_cases hz : r.beginFSK f OOK_BITRATE 0
          OOK_RX_BANDWIDTH 14 16 1.6 false = RADIOLIB_ERR_NONE
      · constructor <;> simp [switchToNextModulation, hm, configureOOKMode, hz]
      · exfalso
        rw [RADIOLIB_ERR_NONE] at hz
        simp [switchToNextModulation, hm, configureOOKMode, RADIOLIB_ERR_NONE, hz] at hst
    · intro hm
      by_cases hz : r.begin f LORA_BANDWIDTH LORA_SPREADING_FACTOR
          LORA_CODING_RATE = RADIOLIB_ERR_NONE
      · constructor <;> simp [switchToNextModulation, hm, configureLoRaMode, hz]
      · exfalso
        rw [RADIOLIB_ERR_NONE] at hz
        simp [switchToNextModulation, hm, configureLoRaMode, RADIOLIB_ERR_NONE, hz] at hst
  · intro calls
    exact runSwitches_not_unknown calls s h

/-- C6 witness: from the LoRa sample state with an always-succeeding radio,
one switch lands on FSK, and a run of calls never reaches Unknown. -/
theorem modulation_cycle_and_never_unknown_witness :
    (switchToNextModulation (some okRadio) 915 sampleState).1 = MOD_FSK ∧
    (runSwitches [(some okRadio, 915)] sampleState).currentModulation ≠ MOD_UNKNOWN := by
  have hc := modulation_cycle_and_never_unknown sampleState (by decide)
  refine ⟨?_, hc.2 [(some okRadio, 915)]⟩
  have hst : (switchToNextModulation (some okRadio) 915 sampleState).2.1 = some 0 := by
    norm_num [switchToNextModulation, sampleState, configureFSKMode, okRadio,
      RADIOLIB_ERR_NONE]
  exact ((hc.1 okRadio 915 hst).1 rfl).1

lemma sweepIter_add (r : SX1262) (k : ℚ) : ∀ (a b : Nat) (s : EngineState),
    sweepIter r k (a + b) s = sweepIter r k b (sweepIter r k a s) := by
  intro a
  induction a with
  | zero =>
    intro b s
    rw [Nat.zero_add]
    simp only [sweepIter]
  | succ a ih =>
    intro b s
    rw [Nat.succ_add]
    show sweepIter r k (a + b) ((sweepToNextFrequency (some r) k s).2.2) =
      sweepIter r k b (sweepIter r k a ((sweepToNextFrequency (some r) k s).2.2))
    exact ih b _

lemma sweepWrapCount_add (r : SX1262) (k : ℚ) : ∀ (a b : Nat) (s : EngineState),
    sweepWrapCount r k (a + b) s =
      sweepWrapCount r k a s + sweepWrapCount r k b (sweepIter r k a s) := by
  intro a
  induction a with
  | zero =>
    intro b s
    rw [Nat.zero_add]
    simp only [sweepWrapCount, sweepIter]
    omega
  | succ a ih =>
    intro b s
    rw [Nat.succ_add]
    show (if s.currentSweepFrequency + k / 1000 > FREQ_900_MAX then 1 else 0)
        + sweepWrapCount r k (a + b) ((sweepToNextFrequency (some r) k s).2.2) = _
    rw [ih b _]
    show _ = (if s.currentSweepFrequency + k / 1000 > FREQ_900_MAX then 1 else 0)
        + sweepWrapCount r k a ((sweepToNextFrequency (some r) k s).2.2)
        + sweepWrapCount r k b (sweepIter r k a ((sweepToNextFrequency (some r) k s).2.2))
    omega

lemma sweep_traversal (r : SX1262) (k : ℚ) (t : Nat)
    (ht2 : ∀ j : Nat, j < t → FREQ_900_MIN + j * (k / 1000) ≤ FREQ_900_MAX)
    (ht : FREQ_900_MIN + t * (k / 1000) > FREQ_900_MAX) :
    ∀ (j i : Nat), i + (j + 1) = t →
      ∀ s : EngineState,
        s.currentSweepFrequency = FREQ_900_MIN + i * (k / 1000) →
        (sweepIter r k (j + 1) s).currentSweepFrequency = FREQ_900_MIN ∧
        sweepWrapCount r k (j + 1) s = 1 := by
  intro j
  induction j with
  | zero =>
    intro i hi s hs
    subst hi
    push_cast at ht
    have hwrap : s.currentSweepFrequency + k / 1000 > FREQ_900_MAX := by
      rw [hs]
      linarith
    constructor
    · show (sweepIter r k 0 ((sweepToNextFrequency (some r) k s).2.2)).currentSweepFrequency = _
      show ((sweepToNextFrequency (some r) k s).2.2).currentSweepFrequency = _
      rw [sweep_cursor_eq, if_pos hwrap]
    · show (if s.currentSweepFrequency + k / 1000 > FREQ_900_MAX then 1 else 0)
        + sweepWrapCount r k 0 ((sweepToNextFrequency (some r) k s).2.2) = 1
      rw [if_pos hwrap]
      rfl
  | succ j ih =>
    intro i hi s hs
    have histep : i + 1 < t := by omega
    have hle := ht2 (i + 1) histep
    push_cast at hle
    have hnw : ¬ s.currentSweepFrequency + k / 1000 > FREQ_900_MAX := by
      rw [hs]
      push_neg
      linarith
    have hstep_c : ((sweepToNextFrequency (some r) k s).2.2).currentSweepFrequency
        = FREQ_900_MIN + ((i + 1 : Nat) : ℚ) * (k / 1000) := by
      rw [sweep_cursor_eq, if_neg hnw, hs]
      push_cast
      ring
    have hrec := ih (i + 1) (by omega) _ hstep_c
    constructor
    · show (sweepIter r k (j + 1) ((sweepToNextFrequency (some r) k s).2.2)).currentSweepFrequency = _
      exact hrec.1
    · show (if s.currentSweepFrequency + k / 1000 > FREQ_900_MAX then 1 else 0)
        + sweepWrapCount r k (j + 1) ((sweepToNextFrequency (some r) k s).2.2) = 1
      rw [if_neg hnw]
      rw [hrec.2]

/-- C7: each sweep step (with a non-NULL radio) increments the cursor by the
configured step; whenever the incremented cursor exceeds the band maximum it
wraps to the band minimum and sets `sweepComplete`; starting at the band
minimum, every full traversal of the band (t steps, where t is the first
step count whose stepped frequency exceeds the maximum) records exactly one
wrap event, so n traversals record exactly n; `resetSweepScan` returns the
cursor to the band minimum and clears the flag unconditionally. -/
theorem sweep_cursor_wrap_and_reset (r : SX1262) (k : ℚ) :
    (∀ (s : EngineState) (code : Int),
      (sweepToNextFrequency (some r) k s).2.1 = some code → code = 0 →
      ((¬ s.currentSweepFrequency + k / 1000 > FREQ_900_MAX →
        (sweepToNextFrequency (some r) k s).2.2.currentSweepFrequency =
          s.currentSweepFrequency + k / 1000 ∧
        (sweepToNextFrequency (some r) k s).2.2.sweepComplete = s.sweepComplete) ∧
       (s.currentSweepFrequency + k / 1000 > FREQ_900_MAX →
        (sweepToNextFrequency (some r) k s).2.2.currentSweepFrequency = FREQ_900_MIN ∧
        (sweepToNextFrequency (some r) k s).2.2.sweepComplete = true))) ∧
    (∀ t : Nat,
      (∀ j : Nat, j < t → FREQ_900_MIN + j * (k / 1000) ≤ FREQ_900_MAX) →
      FREQ_900_MIN + t * (k / 1000) > FREQ_900_MAX →
      ∀ s : EngineState, s.currentSweepFrequency = FREQ_900_MIN →
      ∀ n : Nat,
        (sweepIter r k (n * t) s).currentSweepFrequency = FREQ_900_MIN ∧
        sweepWrapCount r k (n * t) s = n) ∧
    (∀ s : EngineState, resetSweepScan s =
      { s with currentSweepFrequency := FREQ_900_MIN, sweepComplete := false }) := by
  refine ⟨?_, ?_, fun s => rfl⟩
  · intro s code _ _
    constructor
    · intro hnw
      exact ⟨by rw [sweep_cursor_eq, if_neg hnw], by rw [sweep_flag_eq, if_neg hnw]⟩
    · intro hw
      exact ⟨by rw [sweep_cursor_eq, if_pos hw], by rw [sweep_flag_eq, if_pos hw]⟩
  · intro t ht2 ht s hs n
    have ht1 : 1 ≤ t := by
      by_contra hc
      push_neg at hc
      have ht0 : t = 0 := by omega
      rw [ht0] at ht
      norm_num [FREQ_900_MIN, FREQ_900_MAX] at ht
    induction n with
    | zero =>
      rw [Nat.zero_mul]
      exact ⟨hs, rfl⟩
    | succ n ihn =>
      obtain ⟨hc, hw⟩ := ihn
      obtain ⟨t', rfl⟩ : ∃ t', t = t' + 1 := ⟨t - 1, by omega⟩
      have htrav := sweep_traversal r k (t' + 1) ht2 ht t' 0 (by omega)
        (sweepIter r k (n * (t' + 1)) s) (by rw [hc]; push_cast; ring)
      have hmul : (n + 1) * (t' + 1) = n * (t' + 1) + (t' + 1) := Nat.succ_mul n (t' + 1)
      constructor
      · rw [hmul, sweepIter_add]
        exact htrav.1
      · rw [hmul, sweepWrapCount_add, hw, htrav.2]

/-- C7 witness: with step 13000 kHz (13 MHz) the band [902, 928] is
traversed in 3 steps; from the sample state two traversals (6 steps) land
back on the band minimum with exactly 2 wrap events, a single successful
non-wrapping step adds 13 MHz, and the reset equation holds at the sample
state. -/
theorem sweep_cursor_wrap_and_reset_witness :
    ((sweepIter okRadio 13000 (2 * 3) sampleState).currentSweepFrequency = FREQ_900_MIN ∧
     sweepWrapCount okRadio 13000 (2 * 3) sampleState = 2) ∧
    (sweepToNextFrequency (some okRadio) 13000 sampleState).2.2.currentSweepFrequency =
      sampleState.currentSweepFrequency + 13000 / 1000 ∧
    resetSweepScan sampleState =
      { sampleState with currentSweepFrequency := FREQ_900_MIN, sweepComplete := false } := by
  refine ⟨(sweep_cursor_wrap_and_reset okRadio 13000).2.1 3 ?_ ?_ sampleState rfl 2,
    ?_, (sweep_cursor_wrap_and_reset okRadio 13000).2.2 sampleState⟩
  · intro j hj
    interval_cases j <;> norm_num [FREQ_900_MIN, FREQ_900_MAX]
  · norm_num [FREQ_900_MIN, FREQ_900_MAX]
  · refine (((sweep_cursor_wrap_and_reset okRadio 13000).1 sampleState 0 ?_ rfl).1 ?_).1
    · norm_num [sweepToNextFrequency, sampleState, okRadio, configureLoRaMode,
        FREQ_900_MAX, RADIOLIB_ERR_NONE]
    · norm_num [sampleState, FREQ_900_MAX]
